import Mathlib

/-!
Verification of the foodgram backend against its specification.

The Django models (`recipes/models.py`, `users/models.py`) are embedded as
plain record types and the database as lists of rows; the request handlers
(`api/views.py`) and the recipe serializer (`api/serializers.py`) are embedded
as pure functions on that state.  Machine integers of the source (ids,
amounts, cooking times) are embedded as `Nat`/`Int`; fallible handlers return
an explicit result constructor carrying the HTTP status class the source
responds with.  `@transaction.atomic` blocks are embedded as single pure state
transitions: the whole block is one function application, so partial
application of its writes is not representable, matching the atomicity of the
source.
-/

namespace Foodgram

abbrev RecipeId := Nat
abbrev UserId := Nat
abbrev IngredientId := Nat
abbrev TagId := Nat

/-- Row of `recipes.models.Ingredient`: name and measurement unit. -/
structure Ingredient where
  id : IngredientId
  name : String
  measurement_unit : String
deriving DecidableEq, Repr

/-- Row of `recipes.models.Recipe`.  `pub_date` has `auto_now=True` in the
source, so it is refreshed at every save; `created_at` is a ghost field of the
embedding recording the wall-clock instant of creation, available so that
ordering claims about creation time can be stated. -/
structure RecipeRow where
  id : RecipeId
  cooking_time : Nat
  created_at : Nat
  pub_date : Nat
deriving DecidableEq, Repr

/-- Row of `recipes.models.IngredientInRecipe`: one line item. -/
structure LineItem where
  recipe : RecipeId
  ingredient : IngredientId
  amount : Nat
deriving DecidableEq, Repr

/-- One row of the implicit `Recipe.tags` many-to-many table. -/
structure TagAssoc where
  recipe : RecipeId
  tag : TagId
deriving DecidableEq, Repr

/-- Row shape shared by `recipes.models.Favorite` and
`recipes.models.ShoppingCart`: a (user, recipe) join entity. -/
structure JoinRow where
  user : UserId
  recipe : RecipeId
deriving DecidableEq, Repr

/-- Row of `users.models.Subscribe`: `user` follows `author`; `id` is the
auto-increment primary key. -/
structure Subscription where
  id : Nat
  user : UserId
  author : UserId
deriving DecidableEq, Repr

/-- Row of `recipes.models.ShortLink`. -/
structure ShortLinkRow where
  original_url : String
  short_link : String
deriving DecidableEq, Repr

/-- The relational state: one list of rows per table, in table order. -/
structure Db where
  users : List UserId
  ingredients : List Ingredient
  recipes : List RecipeRow
  lineItems : List LineItem
  tagAssocs : List TagAssoc
  favorites : List JoinRow
  shoppingCart : List JoinRow
  subscriptions : List Subscription
  shortLinks : List ShortLinkRow
deriving DecidableEq, Repr

/-! ## Recipe write payload and validation (`api/serializers.py`) -/

/-- One element of the write payload's `ingredients` list, after
`AddIngredientSerializer` resolved `id` into the `ingredient` key. -/
structure IngredientItem where
  ingredient : IngredientId
  amount : Nat
deriving DecidableEq, Repr

/-- The validated-data dict reaching `RecipeSerializer.validate`; `ingredients`
and `tags` are `Option` because the source reads them with `data.get`, which
yields `None` when the key is absent. -/
structure RecipePayload where
  ingredients : Option (List IngredientItem)
  tags : Option (List TagId)
  cooking_time : Int
deriving DecidableEq, Repr

/-- The distinct failure kinds raised by `RecipeSerializer.validate`, one per
message constant from `api/constants.py`.  All map to a 400-class response. -/
inductive ValidationError where
  | ingredientsFieldEmpty
  | tagsFieldEmpty
  | cookingTimeMinError
  | tagsEmptyError
  | tagsUniqueError
  | ingredientsEmptyError
  | ingredientsUniqueError
deriving DecidableEq, Repr

/-- Modelled from the spec: the numeric constant `COOKING_TIME_MIN_VALUE` is
defined in `api/constants.py`, which is not among the sources; the spec states
the rule as "Cooking time ≥ 1". -/
def COOKING_TIME_MIN_VALUE : Int := 1

/-- `RecipeSerializer.validate`, check for check in source order.  Python's
`len(set(l))` is the number of distinct elements, embedded as
`l.dedup.length`; `not ingredients` is true both for an absent key and for an
empty list. -/
def validate (data : RecipePayload) : Except ValidationError RecipePayload :=
  match data.ingredients with
  | none => .error .ingredientsFieldEmpty
  | some ingredients =>
    if ingredients.isEmpty then .error .ingredientsFieldEmpty else
    match data.tags with
    | none => .error .tagsFieldEmpty
    | some tags =>
      if tags.isEmpty then .error .tagsFieldEmpty else
      if data.cooking_time < COOKING_TIME_MIN_VALUE then .error .cookingTimeMinError else
      if tags.length = 0 then .error .tagsEmptyError else
      if tags.dedup.length < tags.length then .error .tagsUniqueError else
      if ingredients.length = 0 then .error .ingredientsEmptyError else
      if (ingredients.map (·.ingredient)).length ≠ (ingredients.map (·.ingredient)).dedup.length
        then .error .ingredientsUniqueError else
      .ok data

/-- The validation order as the specification words it, for comparison with
`validate`: (1) ingredients present and non-empty, (2) tags present and
non-empty, (3) cooking time ≥ 1, (4) no duplicate tags, (5) no duplicate
ingredient ids; first failure reported. -/
def validateOrderSpec (data : RecipePayload) : Except ValidationError RecipePayload :=
  if (data.ingredients.getD []).isEmpty then .error .ingredientsFieldEmpty else
  if (data.tags.getD []).isEmpty then .error .tagsFieldEmpty else
  if data.cooking_time < 1 then .error .cookingTimeMinError else
  if ¬ (data.tags.getD []).Nodup then .error .tagsUniqueError else
  if ¬ ((data.ingredients.getD []).map (·.ingredient)).Nodup then .error .ingredientsUniqueError else
  .ok data

/-! ## Recipe create / update transactions (`RecipeSerializer`) -/

/-- `RecipeSerializer.create_ingredients`: bulk-insert one line item per
payload entry, all attached to `recipe`. -/
def create_ingredients (db : Db) (recipe : RecipeId) (ingredients : List IngredientItem) : Db :=
  { db with lineItems :=
      db.lineItems ++ ingredients.map (fun it => ⟨recipe, it.ingredient, it.amount⟩) }

/-- `Recipe.tags.set(tags)`: replace the recipe's tag associations. -/
def tags_set (db : Db) (recipe : RecipeId) (tags : List TagId) : Db :=
  { db with tagAssocs :=
      db.tagAssocs.filter (fun ta => decide (ta.recipe ≠ recipe))
        ++ tags.map (fun t => ⟨recipe, t⟩) }

/-- Body of `RecipeSerializer.create` (inside `@transaction.atomic`): create
the row, set tags, bulk-create the line items.  `auto_now` stamps `pub_date`
with the save instant. -/
def recipe_create (db : Db) (rid : RecipeId) (ct : Nat) (now : Nat)
    (ingredients : List IngredientItem) (tags : List TagId) : Db :=
  let db1 := { db with recipes :=
      db.recipes ++ [{ id := rid, cooking_time := ct, created_at := now, pub_date := now }] }
  create_ingredients (tags_set db1 rid tags) rid ingredients

/-- Body of `RecipeSerializer.update` (inside `@transaction.atomic`): delete
every line item of the instance, set tags, bulk-create the new line items,
then `super().update` saves the instance, which under `auto_now` refreshes
`pub_date`. -/
def recipe_update (db : Db) (rid : RecipeId) (now : Nat)
    (ingredients : List IngredientItem) (tags : List TagId) : Db :=
  let db1 := { db with lineItems := db.lineItems.filter (fun li => decide (li.recipe ≠ rid)) }
  let db2 := create_ingredients (tags_set db1 rid tags) rid ingredients
  { db2 with recipes := db2.recipes.map (fun r => if r.id = rid then { r with pub_date := now } else r) }

/-- The PATCH pipeline: `is_valid(raise_exception=True)` then `save`; on a
validation failure the handler responds before any write, so the state is
returned unchanged. -/
def recipe_update_flow (db : Db) (rid : RecipeId) (now : Nat) (p : RecipePayload) :
    Except ValidationError Unit × Db :=
  match validate p with
  | .error e => (.error e, db)
  | .ok q => (.ok (), recipe_update db rid now (q.ingredients.getD []) (q.tags.getD []))

/-- The POST pipeline, analogous to `recipe_update_flow`. -/
def recipe_create_flow (db : Db) (rid : RecipeId) (ct : Nat) (now : Nat) (p : RecipePayload) :
    Except ValidationError Unit × Db :=
  match validate p with
  | .error e => (.error e, db)
  | .ok q => (.ok (), recipe_create db rid ct now (q.ingredients.getD []) (q.tags.getD []))

/-! ## Favorite / shopping-cart toggle (`RecipeViewSet.add_to` / `delete_from`) -/

/-- The `model` argument of `add_to` / `delete_from`: which join table the
action addresses. -/
inductive JoinModel where
  | favorite
  | shoppingCart
deriving DecidableEq, Repr

def joinRows (db : Db) : JoinModel → List JoinRow
  | .favorite => db.favorites
  | .shoppingCart => db.shoppingCart

def setJoinRows (db : Db) (m : JoinModel) (rows : List JoinRow) : Db :=
  match m with
  | .favorite => { db with favorites := rows }
  | .shoppingCart => { db with shoppingCart := rows }

/-- Result of `RecipeViewSet.add_to`; the source catches the recipe lookup's
`Http404` and responds with `HTTP_400_BAD_REQUEST` in both error branches. -/
inductive AddResult where
  | recipeNotFound400
  | alreadyAdded400
  | created201 (recipe : RecipeId)
deriving DecidableEq, Repr

/-- HTTP status of each `add_to` outcome, as the source responds. -/
def addStatus : AddResult → Nat
  | .recipeNotFound400 => 400
  | .alreadyAdded400 => 400
  | .created201 _ => 201

/-- `RecipeViewSet.add_to`: `get_object_or_404` wrapped in `try/except Http404`
returning a 400 response; then a uniqueness pre-check; then the insert. -/
def add_to (db : Db) (m : JoinModel) (pk : RecipeId) (u : UserId) : AddResult × Db :=
  match db.recipes.find? (fun r => decide (r.id = pk)) with
  | none => (.recipeNotFound400, db)
  | some recipe =>
    if (joinRows db m).any (fun row => decide (row.user = u ∧ row.recipe = recipe.id)) then
      (.alreadyAdded400, db)
    else
      (.created201 recipe.id, setJoinRows db m (joinRows db m ++ [⟨u, recipe.id⟩]))

/-- Result of `RecipeViewSet.delete_from`; here the recipe lookup's `Http404`
is not caught and propagates as a 404 response. -/
inductive DeleteResult where
  | http404
  | noContent204
  | alreadyRemoved400
deriving DecidableEq, Repr

def deleteStatus : DeleteResult → Nat
  | .http404 => 404
  | .noContent204 => 204
  | .alreadyRemoved400 => 400

/-- `RecipeViewSet.delete_from`: bare `get_object_or_404`, then delete the
matching join rows if any exist, else a 400 'already removed' response. -/
def delete_from (db : Db) (m : JoinModel) (pk : RecipeId) (u : UserId) : DeleteResult × Db :=
  match db.recipes.find? (fun r => decide (r.id = pk)) with
  | none => (.http404, db)
  | some recipe =>
    if (joinRows db m).any (fun row => decide (row.user = u ∧ row.recipe = recipe.id)) then
      (.noContent204,
        setJoinRows db m ((joinRows db m).filter
          (fun row => ! decide (row.user = u ∧ row.recipe = recipe.id))))
    else
      (.alreadyRemoved400, db)

/-! ## Shopping-list aggregation (`RecipeViewSet.download_shopping_cart`) -/

/-- `user.shopping_cart` rows of one user. -/
def cartEntries (db : Db) (u : UserId) : List JoinRow :=
  db.shoppingCart.filter (fun c => decide (c.user = u))

def ingredientName (db : Db) (iid : IngredientId) : String :=
  match db.ingredients.find? (fun i => decide (i.id = iid)) with
  | some i => i.name
  | none => ""

def ingredientUnit (db : Db) (iid : IngredientId) : String :=
  match db.ingredients.find? (fun i => decide (i.id = iid)) with
  | some i => i.measurement_unit
  | none => ""

/-- `IngredientInRecipe.objects.filter(recipe__shopping_cart__user=user)`:
line items whose recipe is in the user's cart.  The `(user, recipe)` unique
constraint on the cart means the join can match each line item at most once. -/
def cartLineItems (db : Db) (u : UserId) : List LineItem :=
  db.lineItems.filter (fun li =>
    db.shoppingCart.any (fun c => decide (c.user = u ∧ c.recipe = li.recipe)))

/-- The `values('ingredient__name', 'ingredient__measurement_unit')`
projection paired with each row's amount. -/
def cartKeyedAmounts (db : Db) (u : UserId) : List ((String × String) × Nat) :=
  (cartLineItems db u).map (fun li =>
    ((ingredientName db li.ingredient, ingredientUnit db li.ingredient), li.amount))

/-- `Sum('amount')` over the rows carrying one grouping key. -/
def sumByKey (items : List ((String × String) × Nat)) (k : String × String) : Nat :=
  ((items.filter (fun p => decide (p.1 = k))).map (·.2)).sum

/-- The group-by of `.values(...).annotate(quantity=Sum('amount'))`: one row
per distinct (name, measurement unit) key, carrying the summed amount. -/
def aggregate (items : List ((String × String) × Nat)) : List ((String × String) × Nat) :=
  (items.map (·.1)).dedup.map (fun k => (k, sumByKey items k))

/-- One line of the plain-text attachment body, following the f-string
`- {name} ({unit}) - {quantity}`. -/
def renderLine (p : (String × String) × Nat) : String :=
  "- " ++ p.1.1 ++ " (" ++ p.1.2 ++ ") - " ++ toString p.2

/-- Outcome of `download_shopping_cart`: a bare 400 response when the user's
cart is empty, else the aggregated listing. -/
inductive DownloadResult where
  | emptyCart400
  | ok (lines : List ((String × String) × Nat))
deriving DecidableEq, Repr

/-- `RecipeViewSet.download_shopping_cart`. -/
def download_shopping_cart (db : Db) (u : UserId) : DownloadResult :=
  if (cartEntries db u).isEmpty then .emptyCart400
  else .ok (aggregate (cartKeyedAmounts db u))

/-! ## Subscriptions (`CustomUserViewSet.subscribe` / `subscriptions`) -/

/-- Outcome of the POST branch of `CustomUserViewSet.subscribe`. -/
inductive SubPostResult where
  | userNotFound404
  | alreadySubscribed400
  | selfSubscribe400
  | created201
deriving DecidableEq, Repr

def subStatus : SubPostResult → Nat
  | .userNotFound404 => 404
  | .alreadySubscribed400 => 400
  | .selfSubscribe400 => 400
  | .created201 => 201

/-- Next auto-increment primary key for the subscription table. -/
def nextSubId (db : Db) : Nat :=
  (db.subscriptions.map (·.id)).foldr max 0 + 1

/-- The `unique_subscription` constraint on `users.models.Subscribe` is the
only constraint on the table: an insert of (u, a) is admissible for the data
store exactly when no (u, a) row exists; nothing in the schema compares `user`
with `author`. -/
def subscribeInsertAllowed (db : Db) (u a : UserId) : Bool :=
  ! db.subscriptions.any (fun s => decide (s.user = u ∧ s.author = a))

/-- POST branch of `CustomUserViewSet.subscribe`: `get_object_or_404(User)`,
then the already-subscribed check, then the self-subscription check, then the
insert. -/
def subscribe_post (db : Db) (u : UserId) (targetId : UserId) : SubPostResult × Db :=
  match db.users.find? (fun x => decide (x = targetId)) with
  | none => (.userNotFound404, db)
  | some author =>
    if db.subscriptions.any (fun s => decide (s.user = u ∧ s.author = author)) then
      (.alreadySubscribed400, db)
    else if u = author then
      (.selfSubscribe400, db)
    else
      (.created201, { db with subscriptions := db.subscriptions ++ [⟨nextSubId db, u, author⟩] })

/-- `CustomUserViewSet.subscriptions` queryset,
`User.objects.filter(subscribing__user=user)`: the user table filtered by
existence of a subscription row; the `User` model declares no `Meta.ordering`,
so the rows come back in table order. -/
def subscriptions_list (db : Db) (u : UserId) : List UserId :=
  db.users.filter (fun a =>
    db.subscriptions.any (fun s => decide (s.user = u ∧ s.author = a)))

/-- Insertion step for sorting subscriptions by descending id. -/
def insertSubByIdDesc (s : Subscription) : List Subscription → List Subscription
  | [] => [s]
  | t :: ts => if t.id ≤ s.id then s :: t :: ts else t :: insertSubByIdDesc s ts

def sortSubsByIdDesc : List Subscription → List Subscription
  | [] => []
  | s :: ss => insertSubByIdDesc s (sortSubsByIdDesc ss)

/-- The ordering the specification words for the subscriptions listing,
written from the spec for comparison with `subscriptions_list`: the user's
subscription rows in reverse-id order (most recent first), projected to their
authors. -/
def subscriptionsByRecentSubSpec (db : Db) (u : UserId) : List UserId :=
  (sortSubsByIdDesc (db.subscriptions.filter (fun s => decide (s.user = u)))).map (·.author)

/-! ## Short links (`GetRecipeShortLink.get`) -/

/-- `Recipe.get_absolute_url`, `reverse('recipe-detail', pk)` under the `/api`
mount of `api/urls.py`. -/
def recipeAbsoluteUrl (rid : RecipeId) : String :=
  "/api/recipes/" ++ toString rid ++ "/"

/-- `string.ascii_letters + string.digits`, the population
`random.sample` draws from. -/
def ascii_letters_and_digits : List Char :=
  "abcdefghijklmnopqrstuvwxyzABCDEFGHIJKLMNOPQRSTUVWXYZ0123456789".toList

/-- `random.sample(population, k)` draws `k` distinct positions of the
population; the embedding takes the chosen positions as an argument, so the
randomness is externalised and `idxs` ranges over every draw the library can
produce (pairwise-distinct in-range indices). -/
def random_sample (pop : List Char) (idxs : List Nat) : List Char :=
  idxs.map (fun i => pop.getD i ' ')

/-- Outcome of `GetRecipeShortLink.get`: `get_object_or_404` on the recipe
propagates as 404; otherwise the serialized stored `short_link`. -/
inductive LinkResult where
  | recipeNotFound404
  | ok (short_link : String)
deriving DecidableEq, Repr

/-- `GetRecipeShortLink.get`: look the recipe up, then
`ShortLink.objects.get_or_create(original_url=..., defaults=...)` — the match
is on `original_url` alone, and the freshly generated token is used only when
no row matches.  `domen` is the `DOMEN` environment value and `freshTok` the
4-character draw of this request. -/
def get_recipe_short_link (db : Db) (domen : String) (freshTok : String) (rid : RecipeId) :
    LinkResult × Db :=
  match db.recipes.find? (fun r => decide (r.id = rid)) with
  | none => (.recipeNotFound404, db)
  | some r =>
    let url := recipeAbsoluteUrl r.id
    match db.shortLinks.find? (fun row => decide (row.original_url = url)) with
    | some row => (.ok row.short_link, db)
    | none =>
      let sl := domen ++ "s/" ++ freshTok
      (.ok sl, { db with shortLinks := db.shortLinks ++ [⟨url, sl⟩] })

/-! ## Recipe listing order (`Recipe.Meta.ordering = ['-pub_date']`) -/

/-- Insertion step for ordering recipe rows by descending `pub_date`. -/
def insertByPubDateDesc (r : RecipeRow) : List RecipeRow → List RecipeRow
  | [] => [r]
  | x :: xs => if x.pub_date ≤ r.pub_date then r :: x :: xs else x :: insertByPubDateDesc r xs

def orderByPubDateDesc : List RecipeRow → List RecipeRow
  | [] => []
  | r :: rs => insertByPubDateDesc r (orderByPubDateDesc rs)

/-- The recipe listing: the recipe table under `Meta.ordering = ['-pub_date']`. -/
def recipe_list (db : Db) : List RecipeRow :=
  orderByPubDateDesc db.recipes

/-! ## Concrete states used by the witnesses and counterexamples -/

/-- State with user 7 whose cart holds recipes 1 and 2, both using the
ingredient "Flour" (unit "g") with amounts 200 and 300. -/
def dbFlour : Db :=
  { users := [7], ingredients := [⟨1, "Flour", "g"⟩],
    recipes := [⟨1, 5, 1, 1⟩, ⟨2, 5, 2, 2⟩], lineItems := [⟨1, 1, 200⟩, ⟨2, 1, 300⟩],
    tagAssocs := [], favorites := [], shoppingCart := [⟨7, 1⟩, ⟨7, 2⟩],
    subscriptions := [], shortLinks := [] }

/-- State with recipe 1 holding the line items A:1 and B:2 (ingredient ids 10
and 11) and tag 100, before the update to the single line item C:3
(ingredient id 12). -/
def dbUpd : Db :=
  { users := [7], ingredients := [], recipes := [⟨1, 5, 1, 1⟩],
    lineItems := [⟨1, 10, 1⟩, ⟨1, 11, 2⟩], tagAssocs := [⟨1, 100⟩], favorites := [],
    shoppingCart := [], subscriptions := [], shortLinks := [] }

/-- The update payload carrying the single line item (C, 3) and tag 200. -/
def pC1 : RecipePayload := ⟨some [⟨12, 3⟩], some [200], 5⟩

/-- User 30 subscribed first to author 10 (subscription id 1) and then to
author 20 (subscription id 2). -/
def dbSubs : Db :=
  { users := [10, 20, 30], ingredients := [], recipes := [], lineItems := [],
    tagAssocs := [], favorites := [], shoppingCart := [],
    subscriptions := [⟨1, 30, 10⟩, ⟨2, 30, 20⟩], shortLinks := [] }

def dbP0 : Db :=
  { users := [], ingredients := [], recipes := [], lineItems := [],
    tagAssocs := [], favorites := [], shoppingCart := [],
    subscriptions := [], shortLinks := [] }

/-- Recipe 1 created at instant 1. -/
def dbP1 : Db := recipe_create dbP0 1 5 1 [⟨10, 1⟩] [100]

/-- Recipe 2 created at instant 2. -/
def dbP2 : Db := recipe_create dbP1 2 5 2 [⟨10, 1⟩] [100]

/-- Recipe 1 edited at instant 3: `auto_now` refreshes its `pub_date`. -/
def dbP3 : Db := recipe_update dbP2 1 3 [⟨12, 3⟩] [100]

/-! ## Supporting lemmas -/

theorem dedup_length_eq_iff {α : Type} [DecidableEq α] (l : List α) :
    l.dedup.length = l.length ↔ l.Nodup := by
  constructor
  · intro h
    have he := l.dedup_sublist.eq_of_length h
    rw [← he]
    exact l.nodup_dedup
  · intro h
    rw [h.dedup]

theorem dedup_length_lt_iff {α : Type} [DecidableEq α] (l : List α) :
    l.dedup.length < l.length ↔ ¬ l.Nodup := by
  constructor
  · intro h hn
    rw [hn.dedup] at h
    exact lt_irrefl _ h
  · intro h
    rcases Nat.lt_or_ge l.dedup.length l.length with hlt | hge
    · exact hlt
    · exact absurd ((dedup_length_eq_iff l).mp
        (Nat.le_antisymm l.dedup_sublist.length_le hge)) h

theorem validate_eq_spec (p : RecipePayload) : validate p = validateOrderSpec p := by
  obtain ⟨ings, tg, ct⟩ := p
  cases ings with
  | none => rfl
  | some l =>
    cases tg with
    | none =>
      by_cases hl : l.isEmpty <;> simp [validate, validateOrderSpec, hl]
    | some t =>
      by_cases hl : l.isEmpty
      · simp [validate, validateOrderSpec, hl]
      · by_cases ht : t.isEmpty
        · simp [validate, validateOrderSpec, hl, ht]
        · by_cases hct : ct < 1
          · simp [validate, validateOrderSpec, COOKING_TIME_MIN_VALUE, hl, ht, hct]
          · have ht0 : ¬ t.length = 0 := by
              simp [List.length_eq_zero, ← List.isEmpty_iff, ht]
            have hl0 : ¬ l.length = 0 := by
              simp [List.length_eq_zero, ← List.isEmpty_iff, hl]
            by_cases htn : t.Nodup
            · have htd : ¬ t.dedup.length < t.length := by
                rw [(dedup_length_lt_iff t)]
                simp [htn]
              have hid := dedup_length_eq_iff (l.map (·.ingredient))
              rw [List.length_map] at hid
              have hlne : ¬ l = [] := by simpa [List.isEmpty_iff] using hl
              have htne : ¬ t = [] := by simpa [List.isEmpty_iff] using ht
              by_cases hin : (l.map (·.ingredient)).Nodup
              · have hq : l.length = (l.map (·.ingredient)).dedup.length := (hid.mpr hin).symm
                simp [validate, validateOrderSpec, COOKING_TIME_MIN_VALUE, hl, ht, hct,
                  ht0, hl0, htn, htd, hin, hq, hlne, htne]
              · have hq : ¬ l.length = (l.map (·.ingredient)).dedup.length :=
                  fun h => hin (hid.mp h.symm)
                simp [validate, validateOrderSpec, COOKING_TIME_MIN_VALUE, hl, ht, hct,
                  ht0, hl0, htn, htd, hin, hq, hlne, htne]
            · have htd : t.dedup.length < t.length := (dedup_length_lt_iff t).mpr htn
              simp [validate, validateOrderSpec, COOKING_TIME_MIN_VALUE, hl, ht, hct,
                ht0, htn, htd]

theorem lineItem_filter_eq_of_ne (rid : RecipeId) (xs : List LineItem) :
    (xs.filter (fun li => decide (li.recipe ≠ rid))).filter (fun li => decide (li.recipe = rid))
      = [] := by
  induction xs with
  | nil => rfl
  | cons x xs ih =>
    by_cases h : x.recipe = rid <;> simp [List.filter_cons, h, ih]

theorem lineItem_filter_ne_idem (rid : RecipeId) (xs : List LineItem) :
    (xs.filter (fun li => decide (li.recipe ≠ rid))).filter (fun li => decide (li.recipe ≠ rid))
      = xs.filter (fun li => decide (li.recipe ≠ rid)) := by
  refine List.filter_eq_self.mpr ?_
  intro a ha
  exact (List.mem_filter.mp ha).2

theorem tagAssoc_filter_eq_of_ne (rid : RecipeId) (xs : List TagAssoc) :
    (xs.filter (fun ta => decide (ta.recipe ≠ rid))).filter (fun ta => decide (ta.recipe = rid))
      = [] := by
  induction xs with
  | nil => rfl
  | cons x xs ih =>
    by_cases h : x.recipe = rid <;> simp [List.filter_cons, h, ih]

theorem tagAssoc_filter_ne_idem (rid : RecipeId) (xs : List TagAssoc) :
    (xs.filter (fun ta => decide (ta.recipe ≠ rid))).filter (fun ta => decide (ta.recipe ≠ rid))
      = xs.filter (fun ta => decide (ta.recipe ≠ rid)) := by
  refine List.filter_eq_self.mpr ?_
  intro a ha
  exact (List.mem_filter.mp ha).2

theorem recipe_update_lineItems (db : Db) (rid : RecipeId) (now : Nat)
    (M : List IngredientItem) (N : List TagId) :
    (recipe_update db rid now M N).lineItems
      = db.lineItems.filter (fun li => decide (li.recipe ≠ rid))
          ++ M.map (fun it => ⟨rid, it.ingredient, it.amount⟩) := rfl

theorem recipe_update_tagAssocs (db : Db) (rid : RecipeId) (now : Nat)
    (M : List IngredientItem) (N : List TagId) :
    (recipe_update db rid now M N).tagAssocs
      = db.tagAssocs.filter (fun ta => decide (ta.recipe ≠ rid))
          ++ N.map (fun t => ⟨rid, t⟩) := rfl

theorem filter_eq_map_line (rid : RecipeId) (M : List IngredientItem) :
    (M.map (fun it => (⟨rid, it.ingredient, it.amount⟩ : LineItem))).filter
        (fun li => decide (li.recipe = rid))
      = M.map (fun it => ⟨rid, it.ingredient, it.amount⟩) := by
  refine List.filter_eq_self.mpr ?_
  intro a ha
  rcases List.mem_map.mp ha with ⟨it, _, rfl⟩
  simp

theorem filter_ne_map_line (rid : RecipeId) (M : List IngredientItem) :
    (M.map (fun it => (⟨rid, it.ingredient, it.amount⟩ : LineItem))).filter
        (fun li => decide (li.recipe ≠ rid)) = [] := by
  rw [List.filter_eq_nil_iff]
  intro a ha
  rcases List.mem_map.mp ha with ⟨it, _, rfl⟩
  simp

theorem filter_eq_map_tag (rid : RecipeId) (N : List TagId) :
    (N.map (fun t => (⟨rid, t⟩ : TagAssoc))).filter (fun ta => decide (ta.recipe = rid))
      = N.map (fun t => ⟨rid, t⟩) := by
  refine List.filter_eq_self.mpr ?_
  intro a ha
  rcases List.mem_map.mp ha with ⟨t, _, rfl⟩
  simp

theorem filter_ne_map_tag (rid : RecipeId) (N : List TagId) :
    (N.map (fun t => (⟨rid, t⟩ : TagAssoc))).filter (fun ta => decide (ta.recipe ≠ rid)) = [] := by
  rw [List.filter_eq_nil_iff]
  intro a ha
  rcases List.mem_map.mp ha with ⟨t, _, rfl⟩
  simp

theorem aggregate_map_fst (items : List ((String × String) × Nat)) :
    (aggregate items).map (·.1) = (items.map (·.1)).dedup := by
  unfold aggregate
  rw [List.map_map]
  have h : ((fun x => x.1) ∘ fun k => (k, sumByKey items k)) = @id (String × String) := rfl
  rw [h, List.map_id]

theorem find?_self_of_mem (u : UserId) (l : List UserId) (h : u ∈ l) :
    l.find? (fun x => decide (x = u)) = some u := by
  induction l with
  | nil => cases h
  | cons a t ih =>
    by_cases ha : a = u
    · subst ha
      simp [List.find?_cons]
    · rcases List.mem_cons.mp h with h1 | h2
      · exact absurd h1.symm ha
      · simp only [List.find?_cons, ha, decide_eq_true_eq]
        simp [ha]
        exact ih h2

theorem ascii_letters_and_digits_nodup : ascii_letters_and_digits.Nodup := by decide

/-! ## Claim theorems -/

/-- C1: a recipe update with a valid payload carrying line-item list M and tag
list N leaves, inside the one atomic transition, exactly the pairs of M as the
recipe's stored line items and exactly N as its tag associations; rows of
other recipes are untouched. -/
theorem claim_C1_update_replaces (db : Db) (rid : RecipeId) (now : Nat) (p : RecipePayload)
    (M : List IngredientItem) (N : List TagId)
    (hv : validate p = .ok p) (hM : p.ingredients = some M) (hN : p.tags = some N) :
    ((recipe_update_flow db rid now p).2.lineItems.filter (fun li => decide (li.recipe = rid))
        = M.map (fun it => ⟨rid, it.ingredient, it.amount⟩)) ∧
    ((recipe_update_flow db rid now p).2.tagAssocs.filter (fun ta => decide (ta.recipe = rid))
        = N.map (fun t => ⟨rid, t⟩)) ∧
    ((recipe_update_flow db rid now p).2.lineItems.filter (fun li => decide (li.recipe ≠ rid))
        = db.lineItems.filter (fun li => decide (li.recipe ≠ rid))) ∧
    ((recipe_update_flow db rid now p).2.tagAssocs.filter (fun ta => decide (ta.recipe ≠ rid))
        = db.tagAssocs.filter (fun ta => decide (ta.recipe ≠ rid))) := by
  have h2 : (recipe_update_flow db rid now p).2 = recipe_update db rid now M N := by
    simp [recipe_update_flow, hv, hM, hN]
  rw [h2, recipe_update_lineItems, recipe_update_tagAssocs]
  refine ⟨?_, ?_, ?_, ?_⟩
  · rw [List.filter_append, lineItem_filter_eq_of_ne, filter_eq_map_line]
    rfl
  · rw [List.filter_append, tagAssoc_filter_eq_of_ne, filter_eq_map_tag]
    rfl
  · rw [List.filter_append, lineItem_filter_ne_idem, filter_ne_map_line, List.append_nil]
  · rw [List.filter_append, tagAssoc_filter_ne_idem, filter_ne_map_tag, List.append_nil]

/-- Witness for C1 at the spec's example: updating the line items A:1, B:2 of
recipe 1 to the single line item C:3 leaves exactly that row and no residue. -/
theorem claim_C1_witness :
    validate pC1 = .ok pC1 ∧
    ((recipe_update_flow dbUpd 1 9 pC1).2.lineItems.filter (fun li => decide (li.recipe = 1))
        = [⟨1, 12, 3⟩]) ∧
    (recipe_update_flow dbUpd 1 9 pC1).2.lineItems = [⟨1, 12, 3⟩] ∧
    ((recipe_update_flow dbUpd 1 9 pC1).2.tagAssocs.filter (fun ta => decide (ta.recipe = 1))
        = [⟨1, 200⟩]) :=
  ⟨rfl, (claim_C1_update_replaces dbUpd 1 9 pC1 [⟨12, 3⟩] [200] rfl rfl rfl).1, by decide,
    (claim_C1_update_replaces dbUpd 1 9 pC1 [⟨12, 3⟩] [200] rfl rfl rfl).2.1⟩

/-- C2: `RecipeSerializer.validate` performs its checks in exactly the order
the spec lists (ingredients missing, tags missing, cooking time, duplicate
tags, duplicate ingredient ids) and reports the first failure — it coincides
with the order-spec function on every payload — and a failing validation
returns the state unchanged on both the update and the create pipeline. -/
theorem claim_C2_validation_order :
    (∀ p, validate p = validateOrderSpec p) ∧
    (∀ db rid now p e, validate p = .error e →
      recipe_update_flow db rid now p = (.error e, db)) ∧
    (∀ db rid ct now p e, validate p = .error e →
      recipe_create_flow db rid ct now p = (.error e, db)) := by
  refine ⟨validate_eq_spec, ?_, ?_⟩
  · intro db rid now p e h
    simp [recipe_update_flow, h]
  · intro db rid ct now p e h
    simp [recipe_create_flow, h]

/-- Witness for C2: a payload violating several rules, and a failing payload
leaving the state untouched. -/
theorem claim_C2_witness :
    validate ⟨some [⟨1, 5⟩, ⟨1, 3⟩], some [2, 2], 0⟩
        = validateOrderSpec ⟨some [⟨1, 5⟩, ⟨1, 3⟩], some [2, 2], 0⟩ ∧
    validate (⟨none, some [1], 3⟩ : RecipePayload) = .error .ingredientsFieldEmpty ∧
    recipe_update_flow dbFlour 1 9 ⟨none, some [1], 3⟩ = (.error .ingredientsFieldEmpty, dbFlour) :=
  ⟨claim_C2_validation_order.1 _, rfl,
    claim_C2_validation_order.2.1 dbFlour 1 9 ⟨none, some [1], 3⟩ .ingredientsFieldEmpty rfl⟩

/-- C3: with a non-empty cart the download joins the cart's line items, groups
them by (ingredient name, measurement unit) and sums amounts — one output row
per distinct key, whose number is the sum — and with an empty cart it fails
with the 400 empty-cart response. -/
theorem claim_C3_shopping_list_aggregation :
    (∀ db u, cartEntries db u = [] → download_shopping_cart db u = .emptyCart400) ∧
    (∀ db u, cartEntries db u ≠ [] →
      download_shopping_cart db u = .ok (aggregate (cartKeyedAmounts db u)) ∧
      ((aggregate (cartKeyedAmounts db u)).map (·.1)).Nodup ∧
      (∀ k, k ∈ (aggregate (cartKeyedAmounts db u)).map (·.1)
          ↔ k ∈ (cartKeyedAmounts db u).map (·.1)) ∧
      (∀ q ∈ aggregate (cartKeyedAmounts db u), q.2 = sumByKey (cartKeyedAmounts db u) q.1)) := by
  constructor
  · intro db u h
    simp [download_shopping_cart, h]
  · intro db u h
    refine ⟨?_, ?_, ?_, ?_⟩
    · simp [download_shopping_cart, List.isEmpty_iff, h]
    · rw [aggregate_map_fst]
      exact List.nodup_dedup _
    · intro k
      rw [aggregate_map_fst]
      exact List.mem_dedup
    · intro q hq
      rcases List.mem_map.mp hq with ⟨k, _, rfl⟩
      rfl

/-- Witness for C3 at the spec's example: Flour 200 in recipe 1 plus Flour 300
in recipe 2 yield the single output line "- Flour (g) - 500". -/
theorem claim_C3_witness :
    cartEntries dbFlour 7 ≠ [] ∧
    download_shopping_cart dbFlour 7 = .ok (aggregate (cartKeyedAmounts dbFlour 7)) ∧
    aggregate (cartKeyedAmounts dbFlour 7) = [(("Flour", "g"), 500)] ∧
    renderLine (("Flour", "g"), 500) = "- Flour (g) - 500" ∧
    download_shopping_cart dbFlour 8 = .emptyCart400 :=
  ⟨by decide, (claim_C3_shopping_list_aggregation.2 dbFlour 7 (by decide)).1,
    by decide, rfl, claim_C3_shopping_list_aggregation.1 dbFlour 8 rfl⟩

/-- Counterexample to C4 as stated: adding recipe 5, which does not exist in
`dbFlour`, to favorites or to the cart answers with status 400, not the
404-equivalent the claim asserts (the handler catches `Http404` and converts
it); no row is inserted. -/
theorem claim_C4_add_counterexample :
    addStatus (add_to dbFlour .favorite 5 7).1 = 400 ∧
    addStatus (add_to dbFlour .favorite 5 7).1 ≠ 404 ∧
    (add_to dbFlour .favorite 5 7).2 = dbFlour ∧
    addStatus (add_to dbFlour .shoppingCart 5 7).1 = 400 ∧
    (add_to dbFlour .shoppingCart 5 7).2 = dbFlour := by
  refine ⟨rfl, by decide, by decide, rfl, by decide⟩

/-- C4 as amended: for every add-to-favorites or add-to-cart request whose
recipe id does not resolve, the handler fails with the recipe-not-found error
carried in a 400-status response and inserts no row. -/
theorem claim_C4_add_missing_recipe (db : Db) (m : JoinModel) (pk : RecipeId) (u : UserId)
    (h : db.recipes.find? (fun r => decide (r.id = pk)) = none) :
    (add_to db m pk u).1 = .recipeNotFound400 ∧
    addStatus (add_to db m pk u).1 = 400 ∧
    (add_to db m pk u).2 = db := by
  simp [add_to, h, addStatus]

/-- Witness for the amended C4 at recipe id 9, absent from `dbFlour`. -/
theorem claim_C4_witness :
    (add_to dbFlour .favorite 9 7).1 = .recipeNotFound400 ∧
    addStatus (add_to dbFlour .favorite 9 7).1 = 400 ∧
    (add_to dbFlour .favorite 9 7).2 = dbFlour :=
  claim_C4_add_missing_recipe dbFlour .favorite 9 7 rfl

/-- C5: a self-subscription request from any existing user is answered with
status 400 and inserts no row, whatever the prior subscription state; and the
table's only constraint (uniqueness of the pair) would itself admit the
self-row, so the rejection comes from the handler, not the schema. -/
theorem claim_C5_self_subscription (db : Db) (u : UserId) (hu : u ∈ db.users) :
    subStatus (subscribe_post db u u).1 = 400 ∧
    (subscribe_post db u u).2 = db ∧
    ((subscribe_post db u u).1 = .alreadySubscribed400 ∨
      (subscribe_post db u u).1 = .selfSubscribe400) ∧
    (db.subscriptions.any (fun s => decide (s.user = u ∧ s.author = u)) = false →
      subscribeInsertAllowed db u u = true) := by
  have hf := find?_self_of_mem u db.users hu
  unfold subscribe_post
  rw [hf]
  by_cases hex : db.subscriptions.any (fun s => decide (s.user = u ∧ s.author = u)) = true
  · have hexP : ∃ x ∈ db.subscriptions, x.user = u ∧ x.author = u := by simpa using hex
    refine ⟨by simp [hexP, subStatus], by simp [hexP], by simp [hexP], ?_⟩
    intro habs
    rw [habs] at hex
    cases hex
  · have hexP : ¬ ∃ x ∈ db.subscriptions, x.user = u ∧ x.author = u := by simpa using hex
    refine ⟨by simp [hexP, subStatus], by simp [hexP], by simp [hexP], ?_⟩
    intro _
    simp only [subscribeInsertAllowed, Bool.not_eq_true', List.any_eq_false, decide_eq_true_eq,
      not_and]
    intro x hx h1 h2
    exact hexP ⟨x, hx, h1, h2⟩

/-- Witness for C5: user 7 subscribing to user 7 in `dbFlour`. -/
theorem claim_C5_witness :
    subStatus (subscribe_post dbFlour 7 7).1 = 400 ∧
    (subscribe_post dbFlour 7 7).2 = dbFlour ∧
    subscribeInsertAllowed dbFlour 7 7 = true :=
  ⟨(claim_C5_self_subscription dbFlour 7 (by decide)).1,
    (claim_C5_self_subscription dbFlour 7 (by decide)).2.1,
    (claim_C5_self_subscription dbFlour 7 (by decide)).2.2.2 rfl⟩

/-- C6: the short-link endpoint is idempotent per recipe — whenever the recipe
resolves, the first call answers with some token and a second call with any
fresh draw answers with the identical stored token and leaves the state
untouched — and a non-resolving recipe id fails with the 404 response. -/
theorem claim_C6_short_link_idempotent :
    (∀ db domen t rid, db.recipes.find? (fun x => decide (x.id = rid)) = none →
      get_recipe_short_link db domen t rid = (.recipeNotFound404, db)) ∧
    (∀ db domen t1 t2 rid r, db.recipes.find? (fun x => decide (x.id = rid)) = some r →
      ∃ s, (get_recipe_short_link db domen t1 rid).1 = .ok s ∧
        get_recipe_short_link (get_recipe_short_link db domen t1 rid).2 domen t2 rid
          = (.ok s, (get_recipe_short_link db domen t1 rid).2)) := by
  constructor
  · intro db domen t rid h
    simp [get_recipe_short_link, h]
  · intro db domen t1 t2 rid r hr
    cases hfind : db.shortLinks.find?
        (fun row => decide (row.original_url = recipeAbsoluteUrl r.id)) with
    | some row =>
      have h1 : get_recipe_short_link db domen t1 rid = (.ok row.short_link, db) := by
        simp [get_recipe_short_link, hr, hfind]
      refine ⟨row.short_link, ?_, ?_⟩
      · rw [h1]
      · rw [h1]
        simp [get_recipe_short_link, hr, hfind]
    | none =>
      have h1 : get_recipe_short_link db domen t1 rid
          = (.ok (domen ++ "s/" ++ t1),
            { db with shortLinks :=
                db.shortLinks ++ [⟨recipeAbsoluteUrl r.id, domen ++ "s/" ++ t1⟩] }) := by
        simp [get_recipe_short_link, hr, hfind]
      refine ⟨domen ++ "s/" ++ t1, ?_, ?_⟩
      · rw [h1]
      · rw [h1]
        simp [get_recipe_short_link, hr, hfind, List.find?_append, List.find?_cons]

/-- Witness for C6: two successive requests for recipe 1 with distinct fresh
draws return the identical token. -/
theorem claim_C6_witness :
    dbFlour.recipes.find? (fun x => decide (x.id = 1)) = some ⟨1, 5, 1, 1⟩ ∧
    (∃ s, (get_recipe_short_link dbFlour "https://d/" "abcd" 1).1 = .ok s ∧
      get_recipe_short_link (get_recipe_short_link dbFlour "https://d/" "abcd" 1).2
          "https://d/" "wxyz" 1
        = (.ok s, (get_recipe_short_link dbFlour "https://d/" "abcd" 1).2)) ∧
    (get_recipe_short_link dbFlour "https://d/" "abcd" 1).1 = .ok "https://d/s/abcd" :=
  ⟨rfl, claim_C6_short_link_idempotent.2 dbFlour "https://d/" "abcd" "wxyz" 1 ⟨1, 5, 1, 1⟩ rfl,
    rfl⟩

/-- Counterexample to C7 as stated: in `dbSubs` user 30 subscribed to author 10
first (subscription id 1) and to author 20 second (id 2); reverse subscription
id order would list author 20 first, but the endpoint's queryset, which ranges
over the user table without an ordering of its own, lists author 10 first. -/
theorem claim_C7_counterexample :
    subscriptions_list dbSubs 30 = [10, 20] ∧
    subscriptionsByRecentSubSpec dbSubs 30 = [20, 10] ∧
    subscriptions_list dbSubs 30 ≠ subscriptionsByRecentSubSpec dbSubs 30 :=
  ⟨rfl, rfl, by decide⟩

/-- C7 as amended: the subscriptions endpoint returns exactly the authors the
current user follows — membership is existence of a subscription row — but in
user-table order, not by reverse subscription id. -/
theorem claim_C7_membership (db : Db) (u a : UserId) :
    a ∈ subscriptions_list db u
      ↔ a ∈ db.users ∧ ∃ s ∈ db.subscriptions, s.user = u ∧ s.author = a := by
  simp [subscriptions_list, List.mem_filter]

/-- C8, the divergence at the failing input: recipe 1 is created at instant 1,
recipe 2 at instant 2, then recipe 1 is edited at instant 3; because
`pub_date` carries `auto_now=True` the edit refreshes it, and the listing
places recipe 1 (created earlier) before recipe 2 (created later), violating
ordering by creation time. -/
theorem claim_C8_ordering_key_is_save_time :
    (recipe_list dbP3).map (·.id) = [1, 2] ∧
    dbP3.recipes.map (fun r => (r.id, r.created_at, r.pub_date)) = [(1, 1, 3), (2, 2, 2)] := by
  refine ⟨by decide, by decide⟩

/-- C9: removal is asymmetric to addition — a remove request whose recipe id
does not resolve propagates the lookup's 404, while the 400 'already removed'
response occurs exactly when the recipe exists but no join row does. -/
theorem claim_C9_delete_vs_add (db : Db) (m : JoinModel) (pk : RecipeId) (u : UserId) :
    (db.recipes.find? (fun r => decide (r.id = pk)) = none →
      delete_from db m pk u = (.http404, db) ∧
      deleteStatus (delete_from db m pk u).1 = 404) ∧
    (∀ recipe, db.recipes.find? (fun r => decide (r.id = pk)) = some recipe →
      (joinRows db m).any (fun row => decide (row.user = u ∧ row.recipe = recipe.id)) = false →
      delete_from db m pk u = (.alreadyRemoved400, db) ∧
      deleteStatus (delete_from db m pk u).1 = 400) := by
  constructor
  · intro h
    simp [delete_from, h, deleteStatus]
  · intro recipe h hno
    have hno' : ¬ ∃ x ∈ joinRows db m, x.user = u ∧ x.recipe = recipe.id := by
      simpa using hno
    simp [delete_from, h, hno', deleteStatus]

/-- Witness for C9: removing absent recipe 9 yields 404; removing existing
recipe 1, never favorited by user 7, yields the 400 'already removed'. -/
theorem claim_C9_witness :
    (delete_from dbFlour .favorite 9 7 = (.http404, dbFlour) ∧
      deleteStatus (delete_from dbFlour .favorite 9 7).1 = 404) ∧
    (delete_from dbFlour .favorite 1 7 = (.alreadyRemoved400, dbFlour) ∧
      deleteStatus (delete_from dbFlour .favorite 1 7).1 = 400) :=
  ⟨(claim_C9_delete_vs_add dbFlour .favorite 9 7).1 rfl,
    (claim_C9_delete_vs_add dbFlour .favorite 1 7).2 ⟨1, 5, 1, 1⟩ rfl rfl⟩

/-- C10: every draw `random.sample` can produce (4 pairwise-distinct in-range
positions of the 62-character population) yields a token of exactly 4 pairwise
distinct characters, and whenever the endpoint mints, the persisted
`short_link` value is the domain string, then "s/", then the token. -/
theorem claim_C10_token_shape :
    (∀ idxs : List Nat, idxs.Nodup →
      (∀ i ∈ idxs, i < ascii_letters_and_digits.length) → idxs.length = 4 →
      (random_sample ascii_letters_and_digits idxs).length = 4 ∧
      (random_sample ascii_letters_and_digits idxs).Nodup) ∧
    (∀ db domen tok rid r,
      db.recipes.find? (fun x => decide (x.id = rid)) = some r →
      db.shortLinks.find? (fun row => decide (row.original_url = recipeAbsoluteUrl r.id)) = none →
      (get_recipe_short_link db domen tok rid).2.shortLinks
        = db.shortLinks ++ [⟨recipeAbsoluteUrl r.id, domen ++ "s/" ++ tok⟩]) := by
  constructor
  · intro idxs hnd hbound hlen
    constructor
    · simp [random_sample, hlen]
    · unfold random_sample
      refine List.Nodup.map_on ?_ hnd
      intro x hx y hy hxy
      have hxb := hbound x hx
      have hyb := hbound y hy
      rw [List.getD_eq_getElem _ _ hxb, List.getD_eq_getElem _ _ hyb] at hxy
      exact ascii_letters_and_digits_nodup.getElem_inj_iff.mp hxy
  · intro db domen tok rid r hr hfind
    simp [get_recipe_short_link, hr, hfind]

/-- Witness for C10 at the draw of positions 0, 1, 2, 3 and at a mint for
recipe 1 of `dbFlour`. -/
theorem claim_C10_witness :
    (random_sample ascii_letters_and_digits [0, 1, 2, 3]).length = 4 ∧
    (random_sample ascii_letters_and_digits [0, 1, 2, 3]).Nodup ∧
    random_sample ascii_letters_and_digits [0, 1, 2, 3] = ['a', 'b', 'c', 'd'] ∧
    (get_recipe_short_link dbFlour "https://d/" "abcd" 1).2.shortLinks
      = dbFlour.shortLinks ++ [⟨recipeAbsoluteUrl 1, "https://d/" ++ "s/" ++ "abcd"⟩] :=
  ⟨(claim_C10_token_shape.1 [0, 1, 2, 3] (by decide) (by decide) rfl).1,
    (claim_C10_token_shape.1 [0, 1, 2, 3] (by decide) (by decide) rfl).2,
    by decide,
    claim_C10_token_shape.2 dbFlour "https://d/" "abcd" 1 ⟨1, 5, 1, 1⟩ rfl rfl⟩

end Foodgram
